import Mathlib

/-!
Shallow embedding of the real-time signal-conditioning and event-detection
pipeline of `src/main.py` (classes `LiveFilter`, `LiveLFilter` and
`SignalVisualizer`).  Values carried on the wire are Python floats, modelled
as either NaN or a rational; times are rationals passed in explicitly
(the source reads `time.time()`).  The `SignalVisualizer` instance state is
the record `VizState`; the slot `SignalVisualizer.update` is the function
`update`, the two timer callbacks are `update_initial_countdown` and
`update_countdown`.  Command emissions (`send_command` calls) and log-file
writes are recorded in the state as instrumented histories `sent` / `logs`.
-/

/-- A Python float value: NaN or a finite value modelled as a rational. -/
inductive PyFloat where
  | nan : PyFloat
  | val : ℚ → PyFloat
deriving DecidableEq, Repr

namespace PyFloat

/-- Python `a <= b`: false whenever either side is NaN. -/
def le : PyFloat → PyFloat → Bool
  | val a, val b => a ≤ b
  | _, _ => false

/-- Python `a < b`: false whenever either side is NaN. -/
def lt : PyFloat → PyFloat → Bool
  | val a, val b => a < b
  | _, _ => false

/-- Python `abs`, the key function of `max(filtered_values, key=abs)`. -/
def pabs : PyFloat → PyFloat
  | nan => nan
  | val q => val |q|

end PyFloat

/-- Python `max(l, key=abs)` on a list: scan left to right, replacing the
current maximum when the key of the next element is strictly greater (all
comparisons false on NaN).  `none` models the `ValueError` on an empty list. -/
def maxByAbs : List PyFloat → Option PyFloat
  | [] => none
  | x :: rest =>
      some (rest.foldl (fun cur y => if PyFloat.lt cur.pabs y.pabs then y else cur) x)

/-- A `collections.deque` of rationals with a `maxlen` bound. -/
structure Deque where
  elems : List ℚ
  maxlen : ℕ
deriving DecidableEq, Repr

/-- `deque.appendleft`: prepend, discarding from the right end when full. -/
def Deque.appendleft (d : Deque) (x : ℚ) : Deque :=
  { d with elems := (x :: d.elems).take d.maxlen }

/-- `np.dot` of two coefficient/delay-line vectors of equal length. -/
def dot (v w : List ℚ) : ℚ := (List.zipWith (fun a b => a * b) v w).sum

/-- The state of one `LiveLFilter`: coefficient vectors `b`, `a` and the two
delay lines `_xs` (last raw inputs, most recent first) and `_ys` (last
outputs, most recent first). -/
structure LiveLFilter where
  b : List ℚ
  a : List ℚ
  xs : Deque
  ys : Deque
deriving DecidableEq, Repr

/-- `LiveLFilter.__init__`: delay lines of zeros, of lengths `len(b)` and
`len(a) - 1`. -/
def LiveLFilter.init (b a : List ℚ) : LiveLFilter :=
  { b := b, a := a,
    xs := { elems := List.replicate b.length 0, maxlen := b.length },
    ys := { elems := List.replicate (a.length - 1) 0, maxlen := a.length - 1 } }

/-- `LiveFilter.process` composed with `LiveLFilter._process`: NaN is returned
unchanged without touching state; otherwise the new sample is prepended to
`_xs`, the output `y = (dot b xs - dot a[1:] ys) / a[0]` is computed,
prepended to `_ys` and returned. -/
def LiveLFilter.process (f : LiveLFilter) (x : PyFloat) : PyFloat × LiveLFilter :=
  match x with
  | .nan => (.nan, f)
  | .val q =>
      let xs := f.xs.appendleft q
      let y := (dot f.b xs.elems - dot f.a.tail f.ys.elems) / f.a.headI
      let ys := f.ys.appendleft y
      (.val y, { f with xs := xs, ys := ys })

/-- One channel: its bandpass filter, its notch filter and its display
buffer `self.data[i]`. -/
structure Chan where
  bp : LiveLFilter
  notch : LiveLFilter
  buf : List PyFloat
deriving DecidableEq, Repr

/-- Conditioning one raw value through one channel:
`filtered = filters[i][1](filters[i][0](x))`, then
`data[i] = np.roll(data[i], -1); data[i][-1] = filtered`. -/
def Chan.cond (c : Chan) (x : PyFloat) : PyFloat × Chan :=
  let r1 := c.bp.process x
  let r2 := c.notch.process r1.1
  (r2.1, { bp := r1.2, notch := r2.2, buf := c.buf.tail ++ [r2.1] })

/-- The per-channel conditioning loop of `SignalVisualizer.update`: returns
the updated channels and the list of filtered values. -/
def condChans : List Chan → List PyFloat → List Chan × List PyFloat
  | [], _ => ([], [])
  | _, [] => ([], [])
  | c :: cs, v :: vs =>
      let r := c.cond v
      let rest := condChans cs vs
      (r.2 :: rest.1, r.1 :: rest.2)

/-- A command token handed to `send_command`. -/
inductive Cmd where
  | select : Cmd
  | right : Cmd
deriving DecidableEq, Repr

/-- Which diagnostic log file a line is appended to. -/
inductive LogKind where
  | enter : LogKind
  | right : LogKind
deriving DecidableEq, Repr

/-- A Python exception escaping the record handler (its `except` clause
catches only `ValueError`). -/
inductive PyExn where
  | stopIteration : PyExn
  | typeError : PyExn
deriving DecidableEq, Repr

/-- One serial line handed to `update`: blank (`''`, `'\n'`, `'\r\n'`), or
its tab-separated fields, each either a parsed float or a parse failure. -/
inductive LineData where
  | blank : LineData
  | fields : List (Option PyFloat) → LineData
deriving DecidableEq, Repr

/-- The list comprehension `[float(v) for v in data.split("\t")]`: fails
(raises `ValueError`) at the first non-numeric field. -/
def parseFields : List (Option PyFloat) → Option (List PyFloat)
  | [] => some []
  | none :: _ => none
  | some v :: rest => (parseFields rest).map (fun vs => v :: vs)

/-- The `SignalVisualizer` instance state relevant to the pipeline, with the
instrumented histories `sent` (arguments and times of `send_command` calls),
`logs` (lines appended to `enter.txt` / `right.txt`) and `parseErrors`
(count of reported `ValueError`s). -/
structure VizState where
  numChannels : ℕ
  chans : List Chan
  eye_open_min : ℚ
  eye_open_max : ℚ
  eye_blink_positive_min : ℚ
  eye_blink_positive_max : ℚ
  eye_blink_negative_min : ℚ
  eye_blink_negative_max : ℚ
  last_print_time : ℚ
  print_delay : ℚ
  eye_open_duration : ℚ
  last_blink_time : ℚ
  blink_cooldown : ℚ
  start_time : ℚ
  initial_delay : ℚ
  initial_delay_complete : Bool
  ready_for_operation : Bool
  countdown_remaining : ℤ
  initial_countdown_remaining : ℤ
  potential_command : Option Cmd
  potential_value : Option PyFloat
  null_operation_counter : ℕ
  countdown_signals_skipped : ℕ
  sent : List (ℚ × Cmd)
  logs : List (LogKind × PyFloat)
  parseErrors : ℕ
deriving DecidableEq, Repr

/-- The chained comparison `eye_open_min <= value <= eye_open_max` of the
open-gesture rule (false on NaN). -/
def neutral (s : VizState) (v : PyFloat) : Bool :=
  PyFloat.le (.val s.eye_open_min) v && PyFloat.le v (.val s.eye_open_max)

/-- The raw-value excursion-band test of the blink rule:
`120 <= v <= 275 or -120 >= v >= -220` with the instance's thresholds. -/
def blinkBand (s : VizState) (v : PyFloat) : Bool :=
  (PyFloat.le (.val s.eye_blink_positive_min) v &&
    PyFloat.le v (.val s.eye_blink_positive_max)) ||
  (PyFloat.le v (.val s.eye_blink_negative_min) &&
    PyFloat.le (.val s.eye_blink_negative_max) v)

/-- The generator predicate inside `next(...)`:
`value > eye_open_max or value < eye_open_min` (false on NaN). -/
def triggerPred (s : VizState) (v : PyFloat) : Bool :=
  PyFloat.lt (.val s.eye_open_max) v || PyFloat.lt v (.val s.eye_open_min)

/-- The `except ValueError` handler: the error is printed, counted here. -/
def reportError (s : VizState) : VizState :=
  { s with parseErrors := s.parseErrors + 1 }

/-- `SignalVisualizer.start_initial_countdown` (state part): reset the
initial countdown and both skip counters. -/
def start_initial_countdown (s : VizState) : VizState :=
  { s with initial_countdown_remaining := 3, null_operation_counter := 0,
           countdown_signals_skipped := 0 }

/-- The `not self.ready_for_operation` branch of `update`: a detected event
is only captured as a provisional command, the skip counter is incremented,
nothing is sent or logged.  Once a provisional command is stored, further
records are ignored until the countdown expires. -/
def countdownStep (now : ℚ) (vals filtered : List PyFloat) (s : VizState) :
    VizState × Option PyExn :=
  if s.potential_command = none then
    if filtered.all (neutral s) then
      if s.eye_open_duration ≤ now - s.last_print_time then
        match maxByAbs filtered with
        | none => (reportError s, none)
        | some tv =>
            ({ s with potential_command := some Cmd.select, potential_value := some tv,
                      countdown_signals_skipped := s.countdown_signals_skipped + 1 }, none)
      else (s, none)
    else if vals.any (blinkBand s) then
      match filtered.find? (triggerPred s) with
      | none => (s, some PyExn.stopIteration)
      | some tv =>
          ({ s with potential_command := some Cmd.right, potential_value := some tv,
                    countdown_signals_skipped := s.countdown_signals_skipped + 1 }, none)
    else (s, none)
  else (s, none)

/-- The Ready branch of `update`: global rate limit, then the open-gesture
rule, else the blink rule; a fired event is logged, advances
`last_print_time`, is suppressed while the skip counters sum below two
(the blink event also while its cooldown has not elapsed), and restarts the
3-second feedback countdown. -/
def readyStep (now : ℚ) (vals filtered : List PyFloat) (s : VizState) :
    VizState × Option PyExn :=
  if s.print_delay ≤ now - s.last_print_time then
    if filtered.all (neutral s) then
      if s.eye_open_duration ≤ now - s.last_print_time then
        match maxByAbs filtered with
        | none => (reportError s, none)
        | some tv =>
            let s1 := { s with logs := s.logs ++ [(LogKind.enter, tv)],
                               last_print_time := now }
            let s2 :=
              if s1.countdown_signals_skipped + s1.null_operation_counter < 2 then
                { s1 with null_operation_counter := s1.null_operation_counter + 1 }
              else
                { s1 with sent := s1.sent ++ [(now, Cmd.select)] }
            ({ s2 with countdown_remaining := 3 }, none)
      else (s, none)
    else if vals.any (blinkBand s) then
      match filtered.find? (triggerPred s) with
      | none => (s, some PyExn.stopIteration)
      | some tv =>
          let s1 := { s with logs := s.logs ++ [(LogKind.right, tv)],
                             last_print_time := now }
          let s2 :=
            if s1.countdown_signals_skipped + s1.null_operation_counter < 2 then
              { s1 with null_operation_counter := s1.null_operation_counter + 1 }
            else if s1.blink_cooldown ≤ now - s1.last_blink_time then
              { s1 with sent := s1.sent ++ [(now, Cmd.right)], last_blink_time := now }
            else s1
          ({ s2 with countdown_remaining := 3 }, none)
    else (s, none)
  else (s, none)

/-- `SignalVisualizer.update`, the slot receiving one serial line.  During
warm-up every record is dropped (the only effect being the transition into
the initial countdown once `initial_delay` has elapsed); afterwards the line
is parsed, conditioned through the per-channel filter chains, and dispatched
to the countdown or Ready branch.  `ValueError` is caught and reported;
`StopIteration` escapes as the second component. -/
def update (now : ℚ) (line : LineData) (s : VizState) : VizState × Option PyExn :=
  if s.initial_delay_complete = false then
    if s.initial_delay ≤ now - s.start_time then
      ({ start_initial_countdown s with initial_delay_complete := true }, none)
    else (s, none)
  else
    match line with
    | .blank => (s, none)
    | .fields fs =>
        match parseFields fs with
        | none => (reportError s, none)
        | some vals =>
            if vals.length ≠ s.numChannels then (reportError s, none)
            else
              let cf := condChans s.chans vals
              let s1 := { s with chans := cf.1 }
              if s1.ready_for_operation = false then countdownStep now vals cf.2 s1
              else readyStep now vals cf.2 s1

/-- `SignalVisualizer.update_initial_countdown`, the initial-countdown timer
slot: decrement; at expiry flip `ready_for_operation`, then discard the
provisional command after printing it (formatting a `None` value with
`:.3f` raises `TypeError`, modelled as the escaping exception). -/
def update_initial_countdown (s : VizState) : VizState × Option PyExn :=
  let s1 := { s with initial_countdown_remaining := s.initial_countdown_remaining - 1 }
  if 0 < s1.initial_countdown_remaining then (s1, none)
  else
    let s2 := { s1 with ready_for_operation := true }
    match s2.potential_value with
    | none => (s2, some PyExn.typeError)
    | some _ => ({ s2 with potential_command := none, potential_value := none }, none)

/-- `SignalVisualizer.update_countdown`, the feedback-countdown timer slot:
purely presentational, it only decrements the visible counter. -/
def update_countdown (s : VizState) : VizState :=
  { s with countdown_remaining := s.countdown_remaining - 1 }

/-- One step of a session: a serial record arriving at a given time, or one
of the two timer ticks. -/
inductive StepInput where
  | record : ℚ → LineData → StepInput
  | initialTick : StepInput
  | tick : StepInput

/-- Apply one session step to the state (exceptions leave the state at the
point they were raised). -/
def step (s : VizState) : StepInput → VizState
  | .record now line => (update now line s).1
  | .initialTick => (update_initial_countdown s).1
  | .tick => update_countdown s

/-- A whole session: fold the steps from an initial state. -/
def runTrace (s : VizState) (steps : List StepInput) : VizState := steps.foldl step s

/-- The construction-time configuration of `SignalVisualizer`: channel
count, display length, the two coefficient pairs produced by `iirfilter`
(external to the repository) and the session start time. -/
structure Config where
  channels : ℕ
  data_length : ℕ
  bp_b : List ℚ
  bp_a : List ℚ
  notch_b : List ℚ
  notch_a : List ℚ
  t0 : ℚ

/-- `create_filters` plus the `np.zeros` display buffer for one channel. -/
def Config.initChan (cfg : Config) : Chan :=
  { bp := LiveLFilter.init cfg.bp_b cfg.bp_a,
    notch := LiveLFilter.init cfg.notch_b cfg.notch_a,
    buf := List.replicate cfg.data_length (PyFloat.val 0) }

/-- `SignalVisualizer.__init__` with `setup_parameters`: the constants of
`setup_parameters` verbatim, fresh filters per channel, empty histories. -/
def initState (cfg : Config) : VizState :=
  { numChannels := cfg.channels,
    chans := List.replicate cfg.channels cfg.initChan,
    eye_open_min := -100, eye_open_max := 100,
    eye_blink_positive_min := 120, eye_blink_positive_max := 275,
    eye_blink_negative_min := -120, eye_blink_negative_max := -220,
    last_print_time := 0, print_delay := 3, eye_open_duration := 5,
    last_blink_time := 0, blink_cooldown := 1,
    start_time := cfg.t0, initial_delay := 5,
    initial_delay_complete := false, ready_for_operation := false,
    countdown_remaining := 0, initial_countdown_remaining := 3,
    potential_command := none, potential_value := none,
    null_operation_counter := 0, countdown_signals_skipped := 0,
    sent := [], logs := [], parseErrors := 0 }

/-- A configuration with one channel, display length two, and zero-gain
unit filters (the coefficient design is external to the repository; these
coefficients make every finite sample filter to zero, which is inside the
neutral band, while NaN still passes through). -/
def cfg1 : Config :=
  { channels := 1, data_length := 2, bp_b := [0], bp_a := [1],
    notch_b := [0], notch_a := [1], t0 := 0 }

/-- The same configuration with two channels. -/
def cfg2 : Config := { cfg1 with channels := 2 }

/-- A one-channel session state that has reached Ready. -/
def readyState1 : VizState :=
  { initState cfg1 with initial_delay_complete := true, ready_for_operation := true }

/-- A two-channel session state that has reached Ready. -/
def readyState2 : VizState :=
  { initState cfg2 with initial_delay_complete := true, ready_for_operation := true }

/-- A one-channel session state inside the initial countdown, holding a
provisional command captured during the countdown, one tick from expiry. -/
def countdownState1 : VizState :=
  { initState cfg1 with
      initial_delay_complete := true
      potential_command := some Cmd.right
      potential_value := some (PyFloat.val 150)
      initial_countdown_remaining := 1 }

/-- A fresh bandpass-style filter with two feed-forward and two feedback
coefficients, used to exercise the filter step at a concrete input. -/
def filt1 : LiveLFilter := LiveLFilter.init [1, 2] [1, 3]

theorem parseFields_length (fs : List (Option PyFloat)) (vals : List PyFloat)
    (h : parseFields fs = some vals) : vals.length = fs.length := by
  induction fs generalizing vals with
  | nil =>
      simp only [parseFields, Option.some.injEq] at h
      simp [← h]
  | cons f rest ih =>
      match f with
      | none => simp [parseFields] at h
      | some v =>
          cases hr : parseFields rest with
          | none => rw [parseFields, hr] at h; simp at h
          | some vs =>
              rw [parseFields, hr] at h
              simp only [Option.map, Option.some.injEq] at h
              rw [← h]
              simp [ih vs hr]

theorem parseFields_eq_none_iff (fs : List (Option PyFloat)) :
    parseFields fs = none ↔ fs.any (fun f => f = none) = true := by
  induction fs with
  | nil => simp [parseFields]
  | cons f rest ih =>
      match f with
      | none => simp [parseFields]
      | some v =>
          cases hr : parseFields rest with
          | none =>
              rw [parseFields, hr]
              simp only [Option.map]
              simpa [hr] using ih
          | some vs =>
              rw [parseFields, hr]
              simp only [Option.map]
              simpa [hr] using ih

/-- Claim C9: a NaN input sample is returned unchanged by the causal
filter's step function, and both delay lines are left exactly as they were
before the call. -/
theorem C9_nan_passthrough (f : LiveLFilter) :
    f.process PyFloat.nan = (PyFloat.nan, f) := rfl

/-- Claim C8: for a non-NaN input sample `x`, the causal filter's step
function prepends `x` to the feed-forward delay line (dropping the oldest,
keeping length `len b`), computes the output as the weighted feed-forward
sum minus the weighted feedback sum over `a[1:]`, normalized by the leading
feedback coefficient `a[0]`, prepends the output to the feedback delay line
(dropping the oldest, keeping length `len a - 1`), and returns the output. -/
theorem C8_filter_step (f : LiveLFilter) (x : ℚ)
    (hxe : f.xs.elems.length = f.b.length)
    (hxm : f.xs.maxlen = f.b.length)
    (hye : f.ys.elems.length = f.a.length - 1)
    (hym : f.ys.maxlen = f.a.length - 1) :
    (f.process (PyFloat.val x)).1 =
      PyFloat.val ((dot f.b ((x :: f.xs.elems).take f.b.length) -
        dot f.a.tail f.ys.elems) / f.a.headI) ∧
    (f.process (PyFloat.val x)).2.xs.elems = (x :: f.xs.elems).take f.b.length ∧
    (f.process (PyFloat.val x)).2.xs.elems.length = f.b.length ∧
    (f.process (PyFloat.val x)).2.ys.elems =
      (((dot f.b ((x :: f.xs.elems).take f.b.length) -
        dot f.a.tail f.ys.elems) / f.a.headI) :: f.ys.elems).take (f.a.length - 1) ∧
    (f.process (PyFloat.val x)).2.ys.elems.length = f.a.length - 1 ∧
    (f.process (PyFloat.val x)).2.b = f.b ∧
    (f.process (PyFloat.val x)).2.a = f.a := by
  simp only [LiveLFilter.process, Deque.appendleft, hxm, hym]
  refine ⟨trivial, trivial, ?_, trivial, ?_, trivial, trivial⟩
  · simp [List.length_take, hxe]
  · simp [List.length_take, hye]

/-- Witness for C8 at the concrete filter `filt1` and sample 5: the
feed-forward delay line after the step is `[5, 0]`. -/
theorem C8_witness :
    (filt1.process (PyFloat.val 5)).2.xs.elems = [5, 0] := by
  have h := C8_filter_step filt1 5 rfl rfl rfl rfl
  simpa [filt1, LiveLFilter.init] using h.2.1

/-- Claim C7: a record arriving during warm-up is fully discarded — when
`initial_delay` has not yet elapsed the state is completely unchanged, and
when it has elapsed the only state change is the one-way transition into the
initial countdown (flag set, countdown reset, counters zeroed); in neither
case is any filter state, display buffer, command history or log touched. -/
theorem C7_warmup_discard (now : ℚ) (line : LineData) (s : VizState)
    (h : s.initial_delay_complete = false) :
    (now - s.start_time < s.initial_delay → update now line s = (s, none)) ∧
    (s.initial_delay ≤ now - s.start_time →
      update now line s =
        ({ s with
             initial_delay_complete := true
             initial_countdown_remaining := 3
             null_operation_counter := 0
             countdown_signals_skipped := 0 }, none)) := by
  constructor
  · intro hlt
    simp only [update, h, if_true, if_neg (not_le.mpr hlt)]
  · intro hge
    simp only [update, start_initial_countdown, h, if_true, if_pos hge]

/-- Witness for C7: with a fresh one-channel session and a record at time 1
(before the 5-second warm-up ends), the state is unchanged. -/
theorem C7_witness :
    update 1 LineData.blank (initState cfg1) = (initState cfg1, none) :=
  (C7_warmup_discard 1 LineData.blank (initState cfg1) rfl).1 (by norm_num [initState, cfg1])

/-- Claim C6: past warm-up, a malformed record (a field failing numeric
parse, or a field count different from the channel count) only reports an
error: the whole state — filters, display buffers, arming state, histories —
is unchanged apart from the error report, no command is sent and no log
line is written. -/
theorem C6_malformed_frame (now : ℚ) (fs : List (Option PyFloat)) (s : VizState)
    (hc : s.initial_delay_complete = true)
    (hbad : fs.any (fun f => f = none) = true ∨ fs.length ≠ s.numChannels) :
    update now (LineData.fields fs) s =
      ({ s with parseErrors := s.parseErrors + 1 }, none) := by
  unfold update
  rw [hc]
  simp only [Bool.true_eq_false, if_false]
  cases hpf : parseFields fs with
  | none => simp [reportError, hc]
  | some vals =>
      have hlen := parseFields_length fs vals hpf
      have hsome : ¬ fs.any (fun f => f = none) = true := by
        rw [← parseFields_eq_none_iff]
        simp [hpf]
      have hne : vals.length ≠ s.numChannels := by
        rcases hbad with hb | hb
        · exact absurd hb hsome
        · omega
      simp [hne, reportError, hc]

/-- Witness for C6: a two-field record on the one-channel Ready state only
increments the error count. -/
theorem C6_witness :
    update 10 (LineData.fields [some (PyFloat.val 1), some (PyFloat.val 2)]) readyState1 =
      ({ readyState1 with parseErrors := readyState1.parseErrors + 1 }, none) :=
  C6_malformed_frame 10 [some (PyFloat.val 1), some (PyFloat.val 2)] readyState1 rfl
    (Or.inr (by norm_num [readyState1, initState, cfg1]))

/-- Claim C5: on the initial-countdown tick that flips the ready flag, any
pending provisional command is discarded — set to none — and nothing is
emitted or enqueued (the command history and logs are unchanged).  The
hypothesis that a stored provisional command always comes with a stored
value is the invariant the record handler maintains (both are set
together). -/
theorem C5_discard_provisional (s : VizState)
    (hrem : s.initial_countdown_remaining ≤ 1)
    (hpv : s.potential_value = none → s.potential_command = none) :
    (update_initial_countdown s).1.ready_for_operation = true ∧
    (update_initial_countdown s).1.potential_command = none ∧
    (update_initial_countdown s).1.sent = s.sent ∧
    (update_initial_countdown s).1.logs = s.logs := by
  have hnot : ¬ (0 < s.initial_countdown_remaining - 1) := by omega
  cases hpv2 : s.potential_value with
  | none =>
      simp [update_initial_countdown, hnot, hpv2, hpv hpv2]
  | some v =>
      simp [update_initial_countdown, hnot, hpv2]

/-- Witness for C5: the countdown state holding a provisional move-next
command discards it on the expiring tick and sends nothing. -/
theorem C5_witness :
    (update_initial_countdown countdownState1).1.ready_for_operation = true ∧
    (update_initial_countdown countdownState1).1.potential_command = none ∧
    (update_initial_countdown countdownState1).1.sent = countdownState1.sent ∧
    (update_initial_countdown countdownState1).1.logs = countdownState1.logs :=
  C5_discard_provisional countdownState1 (by norm_num [countdownState1, initState, cfg1])
    (by simp [countdownState1])

theorem countdownStep_c1 (now : ℚ) (vals filtered : List PyFloat) (s : VizState) :
    (countdownStep now vals filtered s).1.sent = s.sent ∧
    (countdownStep now vals filtered s).1.countdown_signals_skipped +
        (countdownStep now vals filtered s).1.null_operation_counter ≤
      s.countdown_signals_skipped + s.null_operation_counter + 1 := by
  simp only [countdownStep, reportError]
  repeat' split
  all_goals simp
  all_goals omega

theorem readyStep_c1 (now : ℚ) (vals filtered : List PyFloat) (s : VizState) :
    (s.countdown_signals_skipped + s.null_operation_counter < 2 →
      (readyStep now vals filtered s).1.sent = s.sent) ∧
    (readyStep now vals filtered s).1.countdown_signals_skipped +
        (readyStep now vals filtered s).1.null_operation_counter ≤
      s.countdown_signals_skipped + s.null_operation_counter + 1 := by
  simp only [readyStep, reportError]
  repeat' split
  all_goals simp_all
  all_goals omega

/-- Claim C1: the first two events that satisfy a classification rule after
the machine first reaches Ready (counting also matches recorded during the
initial countdown via the skip counter) never cause a command to be passed
to the Command Sink: while the two skip counters sum to less than two,
processing any record leaves the `send_command` history unchanged, and a
single record raises the counter sum by at most one — so a command can be
enqueued only from the third counted event onward. -/
theorem C1_skip_first_two (now : ℚ) (line : LineData) (s : VizState)
    (h : s.countdown_signals_skipped + s.null_operation_counter < 2) :
    (update now line s).1.sent = s.sent ∧
    (update now line s).1.countdown_signals_skipped +
        (update now line s).1.null_operation_counter ≤
      s.countdown_signals_skipped + s.null_operation_counter + 1 := by
  simp only [update]
  repeat' split
  all_goals try exact countdownStep_c1 _ _ _ _
  all_goals try exact ⟨(readyStep_c1 _ _ _ _).1 h, (readyStep_c1 _ _ _ _).2⟩
  all_goals refine ⟨rfl, ?_⟩
  all_goals try simp only [reportError, start_initial_countdown]
  all_goals omega

/-- Witness for C1: in the Ready state with both counters zero, a record
that fires the open-gesture rule is suppressed — nothing reaches the sink. -/
theorem C1_witness :
    (update 10 (LineData.fields [some (PyFloat.val 0)]) readyState1).1.sent =
      readyState1.sent :=
  (C1_skip_first_two 10 (LineData.fields [some (PyFloat.val 0)]) readyState1
    (by norm_num [readyState1, initState, cfg1])).1

theorem update_ready_eq (now : ℚ) (fs : List (Option PyFloat)) (vals : List PyFloat)
    (s : VizState) (hc : s.initial_delay_complete = true)
    (hr : s.ready_for_operation = true)
    (hp : parseFields fs = some vals) (hl : vals.length = s.numChannels) :
    update now (LineData.fields fs) s =
      readyStep now vals (condChans s.chans vals).2
        { s with chans := (condChans s.chans vals).1 } := by
  simp [update, hp, hc, hl, hr]

theorem readyStep_print_time (now : ℚ) (vals filtered : List PyFloat) (s : VizState) :
    (now - s.last_print_time < s.print_delay → readyStep now vals filtered s = (s, none)) ∧
    ((readyStep now vals filtered s).1.last_print_time = s.last_print_time ∧
        (readyStep now vals filtered s).1.logs = s.logs ∨
      ((readyStep now vals filtered s).1.last_print_time = now ∧
        ∃ e, (readyStep now vals filtered s).1.logs = s.logs ++ [e])) := by
  simp only [readyStep, reportError]
  repeat' split
  all_goals refine ⟨fun hlt => ?_, ?_⟩
  all_goals try exact absurd (by assumption : s.print_delay ≤ now - s.last_print_time) (not_le.mpr hlt)
  all_goals try rfl
  all_goals try exact Or.inl ⟨rfl, rfl⟩
  all_goals exact Or.inr ⟨rfl, ⟨_, rfl⟩⟩

theorem readyStep_logs_growth (now : ℚ) (vals filtered : List PyFloat) (s : VizState) :
    ∃ t, (readyStep now vals filtered s).1.logs = s.logs ++ t ∧ t.length ≤ 1 := by
  simp only [readyStep, reportError]
  repeat' split
  all_goals first
    | (refine ⟨[], ?_, ?_⟩ <;> (simp; done))
    | (refine ⟨_, rfl, ?_⟩ <;> (simp; done))

theorem readyStep_neutral_case (now : ℚ) (vals filtered : List PyFloat) (s : VizState)
    (hn : filtered.all (neutral s) = true) :
    (readyStep now vals filtered s).2 = none ∧
    ((readyStep now vals filtered s).1.logs = s.logs ∨
      ∃ tv, (readyStep now vals filtered s).1.logs = s.logs ++ [(LogKind.enter, tv)]) := by
  simp only [readyStep, reportError]
  repeat' split
  all_goals try exact absurd hn (by assumption)
  all_goals try exact ⟨rfl, Or.inl rfl⟩
  all_goals exact ⟨rfl, Or.inr ⟨_, rfl⟩⟩

theorem readyStep_blink_case (now : ℚ) (vals filtered : List PyFloat) (s : VizState)
    (hrate : s.print_delay ≤ now - s.last_print_time)
    (hn : filtered.all (neutral s) = false)
    (hb : vals.any (blinkBand s) = true) :
    (∃ tv, (readyStep now vals filtered s).1.logs = s.logs ++ [(LogKind.right, tv)]) ∨
    (readyStep now vals filtered s).2 = some PyExn.stopIteration := by
  simp only [readyStep, reportError]
  repeat' split
  all_goals try exact absurd hrate (by assumption)
  all_goals try exact absurd (by assumption : filtered.all (neutral s) = true) (by simp [hn])
  all_goals try exact absurd hb (by assumption)
  all_goals try exact Or.inr rfl
  all_goals exact Or.inl ⟨_, rfl⟩

theorem countdownStep_neutral_exn (now : ℚ) (vals filtered : List PyFloat) (s : VizState)
    (hn : filtered.all (neutral s) = true) :
    (countdownStep now vals filtered s).2 = none := by
  simp only [countdownStep, reportError]
  repeat' split
  all_goals try exact absurd hn (by assumption)
  all_goals rfl

theorem update_exn_neutral (now : ℚ) (fs : List (Option PyFloat)) (vals : List PyFloat)
    (s : VizState) (hp : parseFields fs = some vals)
    (hn : (condChans s.chans vals).2.all (neutral s) = true) :
    (update now (LineData.fields fs) s).2 = none := by
  simp only [update, hp]
  repeat' split
  all_goals try rfl
  · exact countdownStep_neutral_exn now vals (condChans s.chans vals).2
      { s with chans := (condChans s.chans vals).1 } hn
  · exact (readyStep_neutral_case now vals (condChans s.chans vals).2
      { s with chans := (condChans s.chans vals).1 } hn).1

/-- Counterexample to C4 as stated: in Ready with both skip counters zero,
the record fires the open-gesture rule, its command is suppressed by the
skip-first-two policy (nothing reaches `send_command`), and yet the
rate-limit timestamp advances from 0 to 10 — so `last_print_time` does not
advance "exactly when a command is emitted to the Command Sink", and a
suppressed event does restart the rate-limit window. -/
theorem C4_cex :
    (update 10 (LineData.fields [some (PyFloat.val 0)]) readyState1).1.sent =
      readyState1.sent ∧
    readyState1.last_print_time = 0 ∧
    (update 10 (LineData.fields [some (PyFloat.val 0)]) readyState1).1.last_print_time
      = 10 := by
  norm_num [update, readyStep, countdownStep, condChans, Chan.cond, LiveLFilter.process,
    Deque.appendleft, dot, parseFields, neutral, blinkBand, triggerPred, maxByAbs,
    readyState1, initState, cfg1, Config.initChan, LiveLFilter.init,
    PyFloat.le, PyFloat.lt, PyFloat.pabs, reportError]

/-- Claim C4 as amended: in the Ready state, a record is evaluated against
the classification rules only if at least `print_delay` seconds have
elapsed since the last fired event — when the rate limit blocks, the step
changes nothing but the filter chains and display buffers.  The timestamp
`last_print_time` advances exactly when an event fires and is logged
(whether or not its command is emitted to the Command Sink): it either
stays unchanged with no log written, or becomes the current time together
with exactly one appended log line. -/
theorem C4_amended_rate_limit (now : ℚ) (fs : List (Option PyFloat))
    (vals : List PyFloat) (s : VizState)
    (hc : s.initial_delay_complete = true)
    (hr : s.ready_for_operation = true)
    (hp : parseFields fs = some vals)
    (hl : vals.length = s.numChannels) :
    (now - s.last_print_time < s.print_delay →
      update now (LineData.fields fs) s =
        ({ s with chans := (condChans s.chans vals).1 }, none)) ∧
    ((update now (LineData.fields fs) s).1.last_print_time = s.last_print_time ∧
        (update now (LineData.fields fs) s).1.logs = s.logs ∨
      ((update now (LineData.fields fs) s).1.last_print_time = now ∧
        ∃ e, (update now (LineData.fields fs) s).1.logs = s.logs ++ [e])) := by
  rw [update_ready_eq now fs vals s hc hr hp hl]
  exact readyStep_print_time now vals (condChans s.chans vals).2
    { s with chans := (condChans s.chans vals).1 }

/-- Witness for C4 as amended: at time 1 the rate limit blocks, and the
one-channel Ready state only updates its filter chain. -/
theorem C4_witness :
    update 1 (LineData.fields [some (PyFloat.val 0)]) readyState1 =
      ({ readyState1 with chans := (condChans readyState1.chans [PyFloat.val 0]).1 },
        none) :=
  (C4_amended_rate_limit 1 [some (PyFloat.val 0)] [PyFloat.val 0] readyState1 rfl rfl
    rfl (by norm_num [readyState1, initState, cfg1])).1
    (by norm_num [readyState1, initState, cfg1])

/-- Counterexample to C3 as stated: a Ready-state record (raw value 200, in
the positive excursion band) for which the open-gesture rule does not fire —
all filtered values are neutral but `eye_open_duration` has not elapsed —
and yet the blink rule is not evaluated: the step produces no log, no
command and no exception, although the trigger-value selection over the
all-neutral filtered values would have raised StopIteration (`find?` is
`none`) had the blink rule been evaluated. -/
theorem C3_cex :
    blinkBand readyState1 (PyFloat.val 200) = true ∧
    (condChans readyState1.chans [PyFloat.val 200]).2.all (neutral readyState1) = true ∧
    (4 : ℚ) - readyState1.last_print_time < readyState1.eye_open_duration ∧
    readyState1.print_delay ≤ (4 : ℚ) - readyState1.last_print_time ∧
    ((condChans readyState1.chans [PyFloat.val 200]).2.find? (triggerPred readyState1)
      = none) ∧
    update 4 (LineData.fields [some (PyFloat.val 200)]) readyState1 =
      ({ readyState1 with chans := (condChans readyState1.chans [PyFloat.val 200]).1 },
        none) := by
  norm_num [update, readyStep, countdownStep, condChans, Chan.cond, LiveLFilter.process,
    Deque.appendleft, dot, parseFields, neutral, blinkBand, triggerPred, maxByAbs,
    readyState1, initState, cfg1, Config.initChan, LiveLFilter.init,
    PyFloat.le, PyFloat.lt, PyFloat.pabs, reportError, List.find?]

/-- Claim C3 as amended: in the Ready state past the rate limit, the two
gesture rules are checked in fixed priority order on the all-channels-
neutral condition, so a record produces at most one event (never both a
select and a move-next): when every filtered value is neutral the step
raises nothing and never logs a move-next (even if a raw value lies in an
excursion band but the duration gate fails, the blink rule is skipped);
the blink rule is evaluated exactly when the all-neutral condition fails,
and then a raw value in an excursion band yields either a logged move-next
event or an escaping StopIteration. -/
theorem C3_amended_priority (now : ℚ) (fs : List (Option PyFloat))
    (vals : List PyFloat) (s : VizState)
    (hc : s.initial_delay_complete = true)
    (hr : s.ready_for_operation = true)
    (hp : parseFields fs = some vals)
    (hl : vals.length = s.numChannels)
    (hrate : s.print_delay ≤ now - s.last_print_time) :
    (∃ t, (update now (LineData.fields fs) s).1.logs = s.logs ++ t ∧ t.length ≤ 1) ∧
    ((condChans s.chans vals).2.all (neutral s) = true →
      (update now (LineData.fields fs) s).2 = none ∧
      ∀ tv, (update now (LineData.fields fs) s).1.logs ≠
        s.logs ++ [(LogKind.right, tv)]) ∧
    ((condChans s.chans vals).2.all (neutral s) = false →
      vals.any (blinkBand s) = true →
      ((∃ tv, (update now (LineData.fields fs) s).1.logs =
          s.logs ++ [(LogKind.right, tv)]) ∨
        (update now (LineData.fields fs) s).2 = some PyExn.stopIteration)) := by
  rw [update_ready_eq now fs vals s hc hr hp hl]
  refine ⟨readyStep_logs_growth _ _ _ _, fun hn => ?_, fun hn hb => ?_⟩
  · have h2 := readyStep_neutral_case now vals (condChans s.chans vals).2
      { s with chans := (condChans s.chans vals).1 } hn
    refine ⟨h2.1, fun tv htv => ?_⟩
    rcases h2.2 with hsame | ⟨tv2, henter⟩
    · rw [hsame] at htv
      simp at htv
    · rw [henter] at htv
      simp at htv
  · exact readyStep_blink_case now vals (condChans s.chans vals).2
      { s with chans := (condChans s.chans vals).1 } hrate hn hb

/-- Witness for C3 as amended: a concrete Ready-state record appends at
most one log line. -/
theorem C3_witness :
    ∃ t, (update 10 (LineData.fields [some (PyFloat.val 0)]) readyState1).1.logs =
        readyState1.logs ++ t ∧ t.length ≤ 1 :=
  (C3_amended_priority 10 [some (PyFloat.val 0)] [PyFloat.val 0] readyState1 rfl rfl rfl
    (by norm_num [readyState1, initState, cfg1])
    (by norm_num [readyState1, initState, cfg1])).1

/-- Counterexample to C10 as stated: there is no valid record with a raw
value in an excursion band whose filtered values all lie inside the neutral
band on which the step raises StopIteration — when every filtered value is
neutral, the all-neutral branch is taken and the trigger-value selection is
never reached, so no exception escapes at all. -/
theorem C10_cex :
    ¬ ∃ (now : ℚ) (fs : List (Option PyFloat)) (vals : List PyFloat) (s : VizState),
        parseFields fs = some vals ∧
        vals.any (blinkBand s) = true ∧
        (condChans s.chans vals).2.all (neutral s) = true ∧
        (update now (LineData.fields fs) s).2 = some PyExn.stopIteration := by
  rintro ⟨now, fs, vals, s, hp, hband, hn, hexn⟩
  rw [update_exn_neutral now fs vals s hp hn] at hexn
  exact Option.noConfusion hexn

/-- Claim C10 as amended: the blink trigger-value selection is partial and
its StopIteration escapes the `except ValueError` handler, but the records
that reach it are those whose filtered values break the all-neutral check
without satisfying the strict trigger test — which requires a NaN filtered
value.  Concretely, on a two-channel Ready state, the record `"nan\t200"`
(raw 200 in the positive excursion band, NaN breaking the neutral check,
every comparable filtered value inside the neutral band) makes the step
raise StopIteration, which is not caught. -/
theorem C10_amended_stopiteration :
    (condChans readyState2.chans [PyFloat.nan, PyFloat.val 200]).2 =
      [PyFloat.nan, PyFloat.val 0] ∧
    blinkBand readyState2 (PyFloat.val 200) = true ∧
    ((condChans readyState2.chans [PyFloat.nan, PyFloat.val 200]).2.all
      (neutral readyState2) = false) ∧
    (update 10 (LineData.fields [some PyFloat.nan, some (PyFloat.val 200)])
        readyState2).2 = some PyExn.stopIteration := by
  norm_num [update, readyStep, countdownStep, condChans, Chan.cond, LiveLFilter.process,
    Deque.appendleft, dot, parseFields, neutral, blinkBand, triggerPred, maxByAbs,
    readyState2, initState, cfg2, cfg1, Config.initChan, LiveLFilter.init,
    PyFloat.le, PyFloat.lt, PyFloat.pabs, reportError, List.find?]

theorem countdownStep_sent_frame (now : ℚ) (vals filtered : List PyFloat) (s : VizState) :
    (countdownStep now vals filtered s).1.sent = s.sent ∧
    (countdownStep now vals filtered s).1.last_blink_time = s.last_blink_time ∧
    (countdownStep now vals filtered s).1.blink_cooldown = s.blink_cooldown := by
  simp only [countdownStep, reportError]
  repeat' split
  all_goals exact ⟨rfl, rfl, rfl⟩

theorem readyStep_sent_shape (now : ℚ) (vals filtered : List PyFloat) (s : VizState) :
    (readyStep now vals filtered s).1.blink_cooldown = s.blink_cooldown ∧
    ((readyStep now vals filtered s).1.sent = s.sent ∧
        (readyStep now vals filtered s).1.last_blink_time = s.last_blink_time ∨
      (readyStep now vals filtered s).1.sent = s.sent ++ [(now, Cmd.select)] ∧
        (readyStep now vals filtered s).1.last_blink_time = s.last_blink_time ∨
      (readyStep now vals filtered s).1.sent = s.sent ++ [(now, Cmd.right)] ∧
        (readyStep now vals filtered s).1.last_blink_time = now ∧
        s.blink_cooldown ≤ now - s.last_blink_time) := by
  simp only [readyStep, reportError]
  repeat' split
  all_goals refine ⟨rfl, ?_⟩
  all_goals try exact Or.inl ⟨rfl, rfl⟩
  all_goals try exact Or.inr (Or.inl ⟨rfl, rfl⟩)
  all_goals exact Or.inr (Or.inr ⟨rfl, rfl, by assumption⟩)

theorem update_sent_shape (now : ℚ) (line : LineData) (s : VizState) :
    (update now line s).1.blink_cooldown = s.blink_cooldown ∧
    ((update now line s).1.sent = s.sent ∧
        (update now line s).1.last_blink_time = s.last_blink_time ∨
      (update now line s).1.sent = s.sent ++ [(now, Cmd.select)] ∧
        (update now line s).1.last_blink_time = s.last_blink_time ∨
      (update now line s).1.sent = s.sent ++ [(now, Cmd.right)] ∧
        (update now line s).1.last_blink_time = now ∧
        s.blink_cooldown ≤ now - s.last_blink_time) := by
  simp only [update, start_initial_countdown]
  repeat' split
  all_goals try exact ⟨rfl, Or.inl ⟨rfl, rfl⟩⟩
  all_goals try exact ⟨(countdownStep_sent_frame _ _ _ _).2.2,
    Or.inl ⟨(countdownStep_sent_frame _ _ _ _).1, (countdownStep_sent_frame _ _ _ _).2.1⟩⟩
  all_goals exact readyStep_sent_shape _ _ _ _

theorem initialTick_frame (s : VizState) :
    (update_initial_countdown s).1.sent = s.sent ∧
    (update_initial_countdown s).1.last_blink_time = s.last_blink_time ∧
    (update_initial_countdown s).1.blink_cooldown = s.blink_cooldown := by
  simp only [update_initial_countdown]
  repeat' split
  all_goals exact ⟨rfl, rfl, rfl⟩

/-- The invariant behind the per-kind cooldown: the cooldown constant is
`c`, every emitted move-next is no later than `last_blink_time`, and the
emission history is pairwise separated by at least `c` between move-next
commands. -/
def SepInv (c : ℚ) (s : VizState) : Prop :=
  s.blink_cooldown = c ∧
  (∀ e ∈ s.sent, e.2 = Cmd.right → e.1 ≤ s.last_blink_time) ∧
  s.sent.Pairwise (fun e1 e2 => e1.2 = Cmd.right → e2.2 = Cmd.right → c ≤ e2.1 - e1.1)

theorem SepInv_step (c : ℚ) (hc : 0 ≤ c) (s : VizState) (i : StepInput)
    (h : SepInv c s) : SepInv c (step s i) := by
  obtain ⟨hcool, hub, hpw⟩ := h
  cases i with
  | record now line =>
      obtain ⟨hcool2, hshape⟩ := update_sent_shape now line s
      show SepInv c (update now line s).1
      rcases hshape with ⟨hs, hb⟩ | ⟨hs, hb⟩ | ⟨hs, hb, hge⟩
      · exact ⟨hcool2.trans hcool, by rw [hs, hb]; exact hub, by rw [hs]; exact hpw⟩
      · refine ⟨hcool2.trans hcool, ?_, ?_⟩
        · rw [hs, hb]
          intro e he hr
          rcases List.mem_append.mp he with hin | hone
          · exact hub e hin hr
          · simp only [List.mem_singleton] at hone
            rw [hone] at hr
            simp at hr
        · rw [hs]
          refine List.pairwise_append.mpr ⟨hpw, List.pairwise_singleton _ _, ?_⟩
          intro e1 h1 e2 h2
          simp only [List.mem_singleton] at h2
          rw [h2]
          intro _ hr2
          simp at hr2
      · have hge2 : c ≤ now - s.last_blink_time := hcool ▸ hge
        have hlb : s.last_blink_time ≤ now := by linarith
        refine ⟨hcool2.trans hcool, ?_, ?_⟩
        · rw [hs, hb]
          intro e he hr
          rcases List.mem_append.mp he with hin | hone
          · exact le_trans (hub e hin hr) hlb
          · simp only [List.mem_singleton] at hone
            rw [hone]
        · rw [hs]
          refine List.pairwise_append.mpr ⟨hpw, List.pairwise_singleton _ _, ?_⟩
          intro e1 h1 e2 h2
          simp only [List.mem_singleton] at h2
          rw [h2]
          intro hr1 _
          have h1le := hub e1 h1 hr1
          linarith
  | initialTick =>
      obtain ⟨hs, hb, hcool2⟩ := initialTick_frame s
      show SepInv c (update_initial_countdown s).1
      exact ⟨hcool2.trans hcool, by rw [hs, hb]; exact hub, by rw [hs]; exact hpw⟩
  | tick => exact ⟨hcool, hub, hpw⟩

theorem SepInv_runTrace (c : ℚ) (hc : 0 ≤ c) (s : VizState) (steps : List StepInput)
    (h : SepInv c s) : SepInv c (runTrace s steps) := by
  induction steps generalizing s with
  | nil => exact h
  | cons i rest ih => exact ih (step s i) (SepInv_step c hc s i h)

/-- Claim C2: along any session starting from construction, any two
move-next commands actually emitted to the Command Sink are at least
`blink_cooldown` seconds apart (the emission history is pairwise separated),
and a step emits a move-next only when `blink_cooldown` has elapsed since
`last_blink_time`, updating that per-kind timestamp exactly then. -/
theorem C2_blink_cooldown (cfg : Config) (steps : List StepInput) :
    (runTrace (initState cfg) steps).sent.Pairwise
      (fun e1 e2 => e1.2 = Cmd.right → e2.2 = Cmd.right →
        (initState cfg).blink_cooldown ≤ e2.1 - e1.1) ∧
    ∀ (now : ℚ) (line : LineData) (s : VizState),
      (update now line s).1.sent = s.sent ++ [(now, Cmd.right)] →
        s.blink_cooldown ≤ now - s.last_blink_time ∧
        (update now line s).1.last_blink_time = now := by
  constructor
  · have h := SepInv_runTrace 1 (by norm_num) (initState cfg) steps
      ⟨rfl, by simp [initState], by simp [initState]⟩
    exact h.2.2
  · intro now line s hsent
    rcases (update_sent_shape now line s).2 with ⟨hs, hb⟩ | ⟨hs, hb⟩ | ⟨hs, hb, hge⟩
    · rw [hs] at hsent
      simp at hsent
    · rw [hs] at hsent
      simp at hsent
    · exact ⟨hge, hb⟩
